import Mathlib

/-!
Verification of the e6client media-browsing client.

This file shallowly embeds the "core" logic of the repository — the request
URL builder, the retry wrapper, the API client accessors, the feed
pagination/dedup controller, the blacklist filter and the settings
loader/migration — as executable Lean definitions, translated directly from
the TypeScript sources (`src/services/api.ts`, `src/types/index.ts`,
`src/utils/index.ts`, `src/hooks/useSettings.ts` and the unnamed hook/config
sources), and proves or refutes the specification's claims about them.

JavaScript strings are modelled as Lean `String`s (with `List Char` views for
the character-level URL transformations), JavaScript numbers that are used as
integers/counters as `Nat`, thrown exceptions as explicit error values, and
asynchronous network calls as explicit oracle functions supplied to the
embedded control flow.
-/

namespace E6Client

/-! ### Data model (from `src/src/types/index.ts`) -/

/-- `FileInfo` record of a post (types/index.ts). -/
structure FileInfo where
  width : Nat
  height : Nat
  ext : String
  size : Nat
  md5 : String
  url : Option String
  deriving Repr, DecidableEq

/-- `PreviewInfo` record of a post (types/index.ts). -/
structure PreviewInfo where
  width : Nat
  height : Nat
  url : Option String
  deriving Repr, DecidableEq

/-- `Score` record of a post (types/index.ts). -/
structure Score where
  up : Int
  down : Int
  total : Int
  deriving Repr, DecidableEq

/-- The seven fixed tag categories of a post (types/index.ts `Tags`). -/
structure Tags where
  general : List String
  species : List String
  character : List String
  artist : List String
  invalid : List String
  meta : List String
  lore : List String
  deriving Repr, DecidableEq

/-- Content rating of a post: safe / questionable / explicit. -/
inductive Rating where
  | s | q | e
  deriving Repr, DecidableEq

/-- The `Post` entity (types/index.ts), restricted to the fields that the
embedded core logic reads; the remaining fields of the TypeScript interface
are payload carried through unchanged and are summarised by `description`,
`uploader_id`, `fav_count` and the structured fields below. -/
structure Post where
  id : Nat
  file : FileInfo
  preview : PreviewInfo
  score : Score
  tags : Tags
  rating : Rating
  fav_count : Nat
  uploader_id : Nat
  description : String
  deriving Repr, DecidableEq

/-- The `Comment` entity (types/index.ts). -/
structure Comment where
  id : Nat
  post_id : Nat
  creator_id : Nat
  creator : String
  body : String
  score : Int
  created_at : String
  updated_at : String
  is_hidden : Bool
  deriving Repr, DecidableEq

/-- The flat (single-account) `Settings` record
(src/src/types/index.ts lines 110-119). -/
structure Settings where
  username : String
  apiKey : String
  proxyUrl : String
  enableProxy : Bool
  nsfwEnabled : Bool
  safeMode : Bool
  darkMode : Bool
  blacklistedTags : List String
  deriving Repr, DecidableEq

/-- `createDefaultSettings` (src/src/types/index.ts lines 121-130). -/
def createDefaultSettings : Settings :=
  { username := ""
    apiKey := ""
    proxyUrl := "https://corsproxy.io/?"
    enableProxy := false
    nsfwEnabled := false
    safeMode := false
    darkMode := true
    blacklistedTags := [] }

/-! ### Blacklist filter (`isPostBlacklisted`, src/src/utils/index.ts lines 24-35) -/

/-- `isPostBlacklisted(post, blacklist)`: short-circuits on an empty
blacklist, then checks whether any tag of the general, species, character or
artist categories occurs in the blacklist (exact string equality). -/
def isPostBlacklisted (post : Post) (blacklist : List String) : Bool :=
  if blacklist.length = 0 then false
  else
    let allTags :=
      post.tags.general ++ post.tags.species ++ post.tags.character ++ post.tags.artist
    allTags.any fun tag => blacklist.contains tag

/-! ### Feed merge (`fetchPosts` append branch, src/src/services/api.ts
lines 250-254 and 765-769) -/

/-- The append-merge of the feed controller:
`existing = new Set(prev.map(p => p.id));
 [...prev, ...fetched.filter(p => !existing.has(p.id))]`. -/
def mergePosts (prev fetched : List Post) : List Post :=
  let existing := prev.map (·.id)
  prev ++ fetched.filter fun p => ¬ existing.contains p.id

/-! ### Errors and the retry wrapper -/

/-- A thrown JavaScript error as the client-side code observes it:
either an axios error that carries an HTTP response (`error.response` with a
`status` and `statusText`), an axios error with no response (network-level
failure), or a plain `Error` with only a message (such as the favorites
validation error), whose `response` property is `undefined`. -/
inductive JsError where
  | response (status : Nat) (statusText : String)
  | noResponse
  | plainError (msg : String)
  deriving Repr, DecidableEq

/-- Retry predicate of `ApiService.fetchWithRetry`
(src/src/services/api.ts line 62):
`!error.response || (error.response.status >= 500 && error.response.status < 600)`. -/
def shouldRetryService (e : JsError) : Bool :=
  match e with
  | .response status _ => 500 ≤ status ∧ status < 600
  | .noResponse => true
  | .plainError _ => true

/-- Retry predicate of the standalone `fetchWithRetry`
(src/src/types/index.ts lines 179-181): `status = error.response?.status;
!status || status >= 500` — also retries a (never observed in practice)
status of 0, and has no upper bound at 600. -/
def shouldRetryStandalone (e : JsError) : Bool :=
  match e with
  | .response status _ => status = 0 ∨ 500 ≤ status
  | .noResponse => true
  | .plainError _ => true

/-- `ApiService.fetchWithRetry(fn, retries = 3, delay = 1000)`
(src/src/services/api.ts lines 55-72), with the async operation modelled as a
function from the 0-based attempt number to its outcome.  Returns the final
outcome, the number of times the operation was executed, and the list of
delays (in ms) slept between attempts.  `retries <= 0` of the JavaScript
source is `retries = 0` on `Nat`. -/
def fetchWithRetryService (fn : Nat → Except JsError α) :
    Nat → Nat → Nat → Except JsError α × Nat × List Nat
  | retries, delay, attempt =>
    match fn attempt with
    | .ok v => (.ok v, attempt + 1, [])
    | .error e =>
      match retries with
      | 0 => (.error e, attempt + 1, [])
      | r + 1 =>
        if shouldRetryService e then
          let rest := fetchWithRetryService fn r (delay * 2) (attempt + 1)
          (rest.1, rest.2.1, delay :: rest.2.2)
        else (.error e, attempt + 1, [])

/-- The standalone `fetchWithRetry(fn, retries = APP_CONFIG.api.maxRetries,
delay = 1000)` (src/src/types/index.ts lines 169-188), same shape as
`fetchWithRetryService` but with the `shouldRetryStandalone` predicate.
`APP_CONFIG.api.maxRetries = 3` (unnamed config source). -/
def fetchWithRetryStandalone (fn : Nat → Except JsError α) :
    Nat → Nat → Nat → Except JsError α × Nat × List Nat
  | retries, delay, attempt =>
    match fn attempt with
    | .ok v => (.ok v, attempt + 1, [])
    | .error e =>
      match retries with
      | 0 => (.error e, attempt + 1, [])
      | r + 1 =>
        if shouldRetryStandalone e then
          let rest := fetchWithRetryStandalone fn r (delay * 2) (attempt + 1)
          (rest.1, rest.2.1, delay :: rest.2.2)
        else (.error e, attempt + 1, [])

/-- `parseApiError` (src/src/types/index.ts lines 190-205): maps a thrown
error to the user-facing message taxonomy. -/
def parseApiError (e : JsError) : String :=
  match e with
  | .response status statusText =>
    if status = 401 ∨ status = 403 then
      "Authentication failed (" ++ toString status ++ "). Check your API credentials."
    else
      "Server error: " ++ toString status ++ " " ++ statusText
  | .noResponse => "Network error. Check your connection or try enabling the proxy."
  | .plainError msg => msg

/-! ### Request URL builder (`ApiService.buildUrl`, src/src/services/api.ts
lines 20-52; `buildApiUrl`, src/src/types/index.ts lines 139-167)

The URL machinery of the browser (`new URL`, `URLSearchParams`,
`encodeURIComponent`, `String.prototype.replace`) is embedded at the
character level. -/

/-- Uppercase hexadecimal digit for `n < 16`. -/
def hexDigit (n : Nat) : Char :=
  if n < 10 then Char.ofNat (48 + n) else Char.ofNat (55 + n)

/-- `%XX` percent-escape of one byte, uppercase hex. -/
def percentByte (b : Nat) : List Char :=
  ['%', hexDigit (b / 16), hexDigit (b % 16)]

/-- UTF-8 byte sequence of a character (code points are valid scalar
values, so the 1-4 byte cases cover everything). -/
def utf8Bytes (c : Char) : List Nat :=
  let n := c.toNat
  if n < 0x80 then [n]
  else if n < 0x800 then
    [0xC0 + n / 64, 0x80 + n % 64]
  else if n < 0x10000 then
    [0xE0 + n / 4096, 0x80 + n / 64 % 64, 0x80 + n % 64]
  else
    [0xF0 + n / 262144, 0x80 + n / 4096 % 64, 0x80 + n / 64 % 64, 0x80 + n % 64]

/-- Characters `encodeURIComponent` leaves unescaped:
`A-Z a-z 0-9 - _ . ! ~ * ' ( )`. -/
def uriComponentUnescaped (c : Char) : Bool :=
  c.isAlphanum || c ∈ ['-', '_', '.', '!', '~', '*', '\'', '(', ')']

/-- JavaScript `encodeURIComponent`: unescaped characters pass through,
everything else becomes the percent-escapes of its UTF-8 bytes. -/
def encodeUriComponent (s : String) : String :=
  ⟨s.data.flatMap fun c =>
    if uriComponentUnescaped c then [c] else (utf8Bytes c).flatMap percentByte⟩

/-- Characters the `application/x-www-form-urlencoded` serializer (used by
`URLSearchParams` and hence by `URL.toString` for the query component)
leaves unescaped: `A-Z a-z 0-9 * - . _`. -/
def formUnescaped (c : Char) : Bool :=
  c.isAlphanum || c ∈ ['*', '-', '.', '_']

/-- `application/x-www-form-urlencoded` escaping of one string: space
becomes `+`, unescaped characters pass through, everything else becomes the
percent-escapes of its UTF-8 bytes. -/
def formEncode (s : String) : String :=
  ⟨s.data.flatMap fun c =>
    if c = ' ' then ['+']
    else if formUnescaped c then [c] else (utf8Bytes c).flatMap percentByte⟩

/-- JavaScript `String.prototype.trim`: drop leading and trailing
whitespace (character-level, so that it is kernel-computable). -/
def jsTrim (s : String) : String :=
  ⟨((s.data.dropWhile Char.isWhitespace).reverse.dropWhile Char.isWhitespace).reverse⟩

/-- Query-parameter maps (`Record<string, string>`) are modelled as ordered
association lists with pairwise-distinct keys, matching the insertion-order
semantics of JavaScript objects with non-index string keys. -/
abbrev ParamMap := List (String × String)

/-- Assignment `obj[k] = v` on a JavaScript object: an existing key keeps
its position and gets the new value, a new key is appended. -/
def jsObjSet (obj : ParamMap) (k v : String) : ParamMap :=
  if (obj.map Prod.fst).contains k then
    obj.map fun p => if p.1 = k then (k, v) else p
  else obj ++ [(k, v)]

/-- The `safeParams` object of the URL builders: the caller's parameters,
then `_cb` set to the current timestamp, then — when `settings.username`
and `settings.apiKey` are both truthy (non-empty) — `login` and `api_key`
set to the trimmed credentials (api.ts lines 22-29, types/index.ts lines
144-152). -/
def safeParams (params : ParamMap) (s : Settings) (now : String) : ParamMap :=
  let withCb := jsObjSet params "_cb" now
  if s.username ≠ "" ∧ s.apiKey ≠ "" then
    jsObjSet (jsObjSet withCb "login" (jsTrim s.username)) "api_key" (jsTrim s.apiKey)
  else withCb

/-- Serialization of the query component after
`searchParams.append(k, v)` for every pair: `k=v` pairs joined by `&`,
key and value form-encoded. -/
def renderQuery (ps : ParamMap) : String :=
  String.intercalate "&" (ps.map fun p => formEncode p.1 ++ "=" ++ formEncode p.2)

/-- `new URL("https://e621.net" + endpoint)` with the search params
appended, then `.toString()`.  `endpoint` is an absolute, already-normalised
path (all call sites pass literals such as `"/posts.json"`). -/
def targetUrlString (endpoint : String) (ps : ParamMap) : String :=
  "https://e621.net" ++ endpoint ++
    (if ps.isEmpty then "" else "?" ++ renderQuery ps)

/-- Does `pat` start the character list `cs`? -/
def listStartsWith : List Char → List Char → Bool
  | [], _ => true
  | _ :: _, [] => false
  | p :: ps, c :: cs => p = c && listStartsWith ps cs

/-- `String.prototype.replace` with a plain-string pattern: replace the
first occurrence of `pat` (character-list level). -/
def replaceFirstChars (pat repl : List Char) : List Char → List Char
  | [] => if pat.isEmpty then repl else []
  | c :: cs =>
    if listStartsWith pat (c :: cs) then repl ++ (c :: cs).drop pat.length
    else c :: replaceFirstChars pat repl cs

/-- `target.replace('https://e621.net', proxyBase)` and friends. -/
def jsReplaceFirst (s pat repl : String) : String :=
  ⟨replaceFirstChars pat.data repl.data s.data⟩

/-- `proxyUrl.replace(/\/$/, '')`: strip one trailing slash. -/
def stripTrailingSlash (u : String) : String :=
  if u.data.getLast? = some '/' then ⟨u.data.dropLast⟩ else u

/-- The URL builder (`ApiService.buildUrl` = `buildApiUrl`; the two sources
are line-for-line the same logic).  `now` is `Date.now().toString()`. -/
def buildUrl (endpoint : String) (params : ParamMap) (s : Settings) (now : String) :
    String :=
  let sp := safeParams params s now
  let target := targetUrlString endpoint sp
  if s.enableProxy ∧ s.proxyUrl ≠ "" then
    if s.proxyUrl.data.contains '?' then
      s.proxyUrl ++ encodeUriComponent target
    else
      jsReplaceFirst target "https://e621.net" (stripTrailingSlash s.proxyUrl)
  else target

/-- The authentication parameters the builders add, used to state their
specification: present with trimmed values exactly when both credentials
are non-empty (JavaScript-truthy). -/
def authParams (s : Settings) : ParamMap :=
  if s.username ≠ "" ∧ s.apiKey ≠ "" then
    [("login", jsTrim s.username), ("api_key", jsTrim s.apiKey)]
  else []

/-- Number of pairs of a parameter list carrying the key `k`. -/
def countKey (ps : ParamMap) (k : String) : Nat :=
  ps.countP fun p => p.1 = k

/-! ### Feed controller (`fetchPosts` in App, src/src/services/api.ts
lines 220-263 (flat-settings variant) and 734-778) -/

/-- The two feed tabs. -/
inductive Tab where
  | home | favorites
  deriving Repr, DecidableEq

/-- The feed page state: accumulated posts, 1-based page cursor, the
"has more" and "loading" flags, and the surfaced error banner message. -/
structure FeedState where
  posts : List Post
  page : Nat
  hasMore : Bool
  loading : Bool
  error : Option String
  deriving Repr, DecidableEq

/-- Observable outcome of one `fetchPosts` invocation: the state afterwards,
how many network requests were actually issued (counting retries), and the
error the `catch` block received, if any. -/
structure FetchResult where
  state : FeedState
  attempts : Nat
  thrown : Option JsError
  deriving Repr, DecidableEq

/-- The query-composition steps at the top of `fetchPosts`'s `try` block:
the favorites tab requires `settings.username` to be truthy and prefixes
`fav:<username> `; without `nsfwEnabled`, `rating:s ` is prefixed and the
result trimmed.  A falsy username on the favorites tab throws the
instructive validation `Error` (api.ts lines 228-239). -/
def composeFinalQuery (s : Settings) (tab : Tab) (query : String) :
    Except JsError String :=
  let step1 : Except JsError String :=
    match tab with
    | .favorites =>
      if s.username = "" then
        .error (.plainError
          "Please set your username in Settings > Account to view favorites.")
      else .ok ("fav:" ++ s.username ++ " " ++ query)
    | .home => .ok query
  step1.map fun q => if s.nsfwEnabled then q else jsTrim ("rating:s " ++ q)

/-- One invocation of `fetchPosts(reset)` (api.ts lines 220-263), with the
network modelled as `net finalQuery page attempt`, run through the retry
wrapper exactly as `api.getPosts` does (retries 3, initial delay 1000 ms).

Control flow of the source: an early return when already loading or when
appending with `hasMore` false; `loading := true` and (on reset) the error
banner cleared; query composition, which can throw; the retried network
call; on success `hasMore := fetched.length > 0` and then, unconditionally,
either a list replacement with cursor 2 (reset) or a dedup-merge with
cursor + 1 (append); any caught error sets the banner only on reset;
`loading := false` in `finally`. -/
def fetchPostsFn (st : FeedState) (s : Settings) (tab : Tab) (query : String)
    (reset : Bool) (net : String → Nat → Nat → Except JsError (List Post)) :
    FetchResult :=
  if st.loading ∨ (¬reset ∧ ¬st.hasMore) then ⟨st, 0, none⟩
  else
    let st1 := { st with loading := true, error := if reset then none else st.error }
    match composeFinalQuery s tab query with
    | .error e =>
      ⟨{ st1 with
          loading := false
          error := if reset then some (parseApiError e) else st1.error }, 0, some e⟩
    | .ok finalQuery =>
      let currentPage := if reset then 1 else st.page
      let run := fetchWithRetryStandalone (net finalQuery currentPage) 3 1000 0
      match run.1 with
      | .error e =>
        ⟨{ st1 with
            loading := false
            error := if reset then some (parseApiError e) else st1.error },
          run.2.1, some e⟩
      | .ok fetched =>
        ⟨{ posts := if reset then fetched else mergePosts st.posts fetched
           page := if reset then 2 else st.page + 1
           hasMore := decide (0 < fetched.length)
           loading := false
           error := st1.error }, run.2.1, none⟩

/-! ### `getComments` (src/src/services/api.ts lines 105-120,
src/src/types/index.ts lines 240-253) -/

/-- The dynamically-typed response body of the comments endpoint as the
JavaScript expression `response.data.comments || response.data || []`
observes it: `jsUndefinedV` is JavaScript `undefined`, `arr` a (bare) array of
comments, `obj` an object whose `comments` property may be absent. -/
inductive CommentsData where
  | jsUndefinedV
  | arr (cs : List Comment)
  | obj (comments : Option CommentsData)

/-- JavaScript truthiness of such a value: `undefined` is falsy, arrays and
objects (even empty ones) are truthy. -/
def jsTruthy (v : CommentsData) : Bool :=
  match v with
  | .jsUndefinedV => false
  | .arr _ => true
  | .obj _ => true

/-- JavaScript `a || b`. -/
def jsOr (a b : CommentsData) : CommentsData :=
  if jsTruthy a then a else b

/-- The property access `data.comments`. -/
def dotComments (v : CommentsData) : CommentsData :=
  match v with
  | .obj c => c.getD .jsUndefinedV
  | _ => .jsUndefinedV

/-- `api.getComments(settings, postId)`: builds the comments URL (with
`search[post_id]`, `group_by=comment`, `limit=30`), issues the request via
`net`, tolerates both response envelopes with
`res.data.comments || res.data || []`, and swallows every error into the
empty array. -/
def getComments (s : Settings) (postId : Nat) (now : String)
    (net : String → Except JsError CommentsData) : CommentsData :=
  let url := buildUrl "/comments.json"
    [("search[post_id]", toString postId), ("group_by", "comment"), ("limit", "30")]
    s now
  match net url with
  | .ok data => jsOr (dotComments data) (jsOr data (.arr []))
  | .error _ => .arr []

/-! ### Settings loading (`useSettings` initialisers: unnamed sources
part_000 and part_001, and src/src/hooks/useSettings.ts) -/

/-- A parsed JSON value, as `JSON.parse` of the persisted blob produces it. -/
inductive JVal where
  | jnull
  | jbool (b : Bool)
  | jnum (n : Int)
  | jstr (s : String)
  | jarr (xs : List JVal)
  | jobj (fields : List (String × JVal))

/-- Property lookup on a parsed JSON object (`JSON.parse` already collapsed
duplicate keys, so `fields` has distinct keys). -/
def jget (fields : List (String × JVal)) (k : String) : Option JVal :=
  (fields.find? fun p => p.1 = k).map Prod.snd

/-- JavaScript `Array.isArray`. -/
def jIsArray (v : JVal) : Bool :=
  match v with
  | .jarr _ => true
  | _ => false

/-- Is the value a string?  (Used to state well-formedness.) -/
def jIsStr (v : JVal) : Bool :=
  match v with
  | .jstr _ => true
  | _ => false

/-- Is the value a boolean? -/
def jIsBool (v : JVal) : Bool :=
  match v with
  | .jbool _ => true
  | _ => false

/-- The dynamically-typed value the `useSettings` initialiser of part_000
actually produces for each field of the `Settings` record: JavaScript's
spread copies whatever value the parsed blob holds, with no type coercion. -/
structure LoadedSettings where
  username : JVal
  apiKey : JVal
  proxyUrl : JVal
  enableProxy : JVal
  nsfwEnabled : JVal
  safeMode : JVal
  darkMode : JVal
  blacklistedTags : JVal

/-- `createDefaultSettings()` viewed as dynamic values. -/
def defaultLoadedSettings : LoadedSettings :=
  { username := .jstr ""
    apiKey := .jstr ""
    proxyUrl := .jstr "https://corsproxy.io/?"
    enableProxy := .jbool false
    nsfwEnabled := .jbool false
    safeMode := .jbool false
    darkMode := .jbool true
    blacklistedTags := .jarr [] }

/-- Does the loaded value conform to the `Settings` TypeScript type
(strings, booleans, and an array of strings for the blacklist)? -/
def wellFormedSettings (l : LoadedSettings) : Bool :=
  jIsStr l.username && jIsStr l.apiKey && jIsStr l.proxyUrl &&
  jIsBool l.enableProxy && jIsBool l.nsfwEnabled && jIsBool l.safeMode &&
  jIsBool l.darkMode &&
  (match l.blacklistedTags with
   | .jarr xs => xs.all jIsStr
   | _ => false)

/-- The stored blob: `none` when the storage key is absent, `some none` when
`JSON.parse` throws on the stored text, `some (some v)` when it parses to
`v`. -/
abbrev StoredBlob := Option (Option JVal)

/-- The `useSettings` state initialiser of the current hook (unnamed source
part_000, lines 5-23): absent storage and parse failures yield the
defaults; a parsed object is spread over the defaults field by field, and
`blacklistedTags` is forced back to the default when the stored value is not
an array.  A parsed `null` makes the member access
`parsed.blacklistedTags` throw, which the surrounding `try` turns into the
defaults; a parsed primitive contributes no named fields. -/
def loadSettingsCurrent (stored : StoredBlob) : LoadedSettings :=
  match stored with
  | none => defaultLoadedSettings
  | some none => defaultLoadedSettings
  | some (some (.jobj fs)) =>
    { username := (jget fs "username").getD defaultLoadedSettings.username
      apiKey := (jget fs "apiKey").getD defaultLoadedSettings.apiKey
      proxyUrl := (jget fs "proxyUrl").getD defaultLoadedSettings.proxyUrl
      enableProxy := (jget fs "enableProxy").getD defaultLoadedSettings.enableProxy
      nsfwEnabled := (jget fs "nsfwEnabled").getD defaultLoadedSettings.nsfwEnabled
      safeMode := (jget fs "safeMode").getD defaultLoadedSettings.safeMode
      darkMode := (jget fs "darkMode").getD defaultLoadedSettings.darkMode
      blacklistedTags :=
        match jget fs "blacklistedTags" with
        | some v => if jIsArray v then v else defaultLoadedSettings.blacklistedTags
        | none => defaultLoadedSettings.blacklistedTags }
  | some (some _) => defaultLoadedSettings

/-- The dynamically-typed result of the legacy `useSettings` hook
(src/src/hooks/useSettings.ts), over the `AppSettings` record, which has no
`nsfwEnabled` field. -/
structure LoadedAppSettings where
  username : JVal
  apiKey : JVal
  proxyUrl : JVal
  enableProxy : JVal
  safeMode : JVal
  darkMode : JVal
  blacklistedTags : JVal

/-- `DEFAULT_SETTINGS` of the legacy hook viewed as dynamic values. -/
def defaultLoadedAppSettings : LoadedAppSettings :=
  { username := .jstr ""
    apiKey := .jstr ""
    proxyUrl := .jstr "https://corsproxy.io/?"
    enableProxy := .jbool false
    safeMode := .jbool false
    darkMode := .jbool true
    blacklistedTags := .jarr [] }

/-- The `useSettings` state initialiser of src/src/hooks/useSettings.ts
(lines 4-12): `stored ? { ...DEFAULT_SETTINGS, ...JSON.parse(stored) } :
DEFAULT_SETTINGS` inside a `try`.  Note: no sanitisation of any field —
whatever the blob holds is spread in as-is. -/
def loadSettingsHooks (stored : StoredBlob) : LoadedAppSettings :=
  match stored with
  | none => defaultLoadedAppSettings
  | some none => defaultLoadedAppSettings
  | some (some (.jobj fs)) =>
    { username := (jget fs "username").getD defaultLoadedAppSettings.username
      apiKey := (jget fs "apiKey").getD defaultLoadedAppSettings.apiKey
      proxyUrl := (jget fs "proxyUrl").getD defaultLoadedAppSettings.proxyUrl
      enableProxy := (jget fs "enableProxy").getD defaultLoadedAppSettings.enableProxy
      safeMode := (jget fs "safeMode").getD defaultLoadedAppSettings.safeMode
      darkMode := (jget fs "darkMode").getD defaultLoadedAppSettings.darkMode
      blacklistedTags :=
        (jget fs "blacklistedTags").getD defaultLoadedAppSettings.blacklistedTags }
  | some (some _) => defaultLoadedAppSettings

/-- JavaScript truthiness of a parsed JSON value: `null`, `false`, `0` and
`""` are falsy; everything else (including empty arrays and objects) is
truthy. -/
def jvalTruthy (v : JVal) : Bool :=
  match v with
  | .jnull => false
  | .jbool b => b
  | .jnum n => n ≠ 0
  | .jstr s => s ≠ ""
  | .jarr _ => true
  | .jobj _ => true

/-- Truthiness of a property lookup: an absent property is `undefined`,
which is falsy. -/
def optTruthy (o : Option JVal) : Bool :=
  match o with
  | none => false
  | some v => jvalTruthy v

/-- The dynamically-typed result of the part_001 `useSettings` initialiser,
over the multi-account schema: the declared fields are the account list,
the active-account pointer and the carried flat fields (the record type
mirrors `MultiAccountSettings`; the legacy `username`/`apiKey` properties
the spread also copies lie outside the declared record and are not
modelled). -/
structure LoadedMultiSettings where
  accounts : JVal
  activeAccountId : JVal
  proxyUrl : JVal
  enableProxy : JVal
  nsfwEnabled : JVal
  safeMode : JVal
  darkMode : JVal
  blacklistedTags : JVal

/-- Modelled from the spec: the multi-account `createDefaultSettings`
viewed as dynamic values.  Its declaration is not among the provided
sources; per spec §3 the defaults hold zero accounts and no active pointer
(`[]` / `null`), and the flat fields keep the defaults of the flat
`createDefaultSettings` that is in src. -/
def defaultLoadedMultiSettings : LoadedMultiSettings :=
  { accounts := .jarr []
    activeAccountId := .jnull
    proxyUrl := .jstr "https://corsproxy.io/?"
    enableProxy := .jbool false
    nsfwEnabled := .jbool false
    safeMode := .jbool false
    darkMode := .jbool true
    blacklistedTags := .jarr [] }

/-- The `useSettings` state initialiser of part_001 (lines 5-50), the
migrating loader: absent storage and parse failures yield the defaults (a
stored `null` makes the `parsed.username` access throw, which the `try`
catches into the defaults; a primitive contributes no named fields); a
parsed object with a `username` property and no `accounts` property takes
the legacy-migration branch (`accounts := []`, `activeAccountId := null`,
then one active account when both legacy credentials are truthy); any
other parsed object is spread over the defaults with `accounts` and
`blacklistedTags` forced back to arrays.  `crypto.randomUUID()` is the
supplied `freshId`. -/
def loadSettingsMigrating (stored : StoredBlob) (freshId : String) :
    LoadedMultiSettings :=
  match stored with
  | none => defaultLoadedMultiSettings
  | some none => defaultLoadedMultiSettings
  | some (some (.jobj fs)) =>
    let blk : JVal :=
      match jget fs "blacklistedTags" with
      | some v => if jIsArray v then v else defaultLoadedMultiSettings.blacklistedTags
      | none => defaultLoadedMultiSettings.blacklistedTags
    let flat : LoadedMultiSettings :=
      { accounts := .jarr []
        activeAccountId := .jnull
        proxyUrl := (jget fs "proxyUrl").getD defaultLoadedMultiSettings.proxyUrl
        enableProxy := (jget fs "enableProxy").getD defaultLoadedMultiSettings.enableProxy
        nsfwEnabled := (jget fs "nsfwEnabled").getD defaultLoadedMultiSettings.nsfwEnabled
        safeMode := (jget fs "safeMode").getD defaultLoadedMultiSettings.safeMode
        darkMode := (jget fs "darkMode").getD defaultLoadedMultiSettings.darkMode
        blacklistedTags := blk }
    if (jget fs "username").isSome ∧ (jget fs "accounts").isNone then
      if optTruthy (jget fs "username") ∧ optTruthy (jget fs "apiKey") then
        { flat with
            accounts := .jarr [.jobj
              [("id", .jstr freshId),
               ("name", (jget fs "username").getD .jnull),
               ("username", (jget fs "username").getD .jnull),
               ("apiKey", (jget fs "apiKey").getD .jnull),
               ("hostUrl", .jstr "https://e621.net")]]
            activeAccountId := .jstr freshId }
      else flat
    else
      { flat with
          accounts :=
            match jget fs "accounts" with
            | some v => if jIsArray v then v else defaultLoadedMultiSettings.accounts
            | none => defaultLoadedMultiSettings.accounts
          activeAccountId := (jget fs "activeAccountId").getD
            defaultLoadedMultiSettings.activeAccountId }
  | some (some _) => defaultLoadedMultiSettings

/-! ### Legacy-settings migration (unnamed source part_001, lines 13-46) -/

/-- One named credential profile of the multi-account schema.  The field set
is taken from the account literal built by the migration code in part_001. -/
structure Account where
  id : String
  name : String
  username : String
  apiKey : String
  hostUrl : String
  deriving Repr, DecidableEq

/-- Modelled from the spec: the multi-account `Settings` record (spec §3
"Settings/Account" and §6 "Local persisted state").  Its TypeScript
declaration is not among the provided sources; the fields are those the
migration code of part_001 and the account-management UI of part_005 read
and write — the account list, the active-account pointer, and the carried
flat fields. -/
structure MultiAccountSettings where
  accounts : List Account
  activeAccountId : Option String
  proxyUrl : String
  enableProxy : Bool
  nsfwEnabled : Bool
  safeMode : Bool
  darkMode : Bool
  blacklistedTags : List String
  deriving Repr, DecidableEq

/-- The legacy-schema branch of the part_001 `useSettings` initialiser
(`parsed.username !== undefined && parsed.accounts === undefined`), applied
to a well-typed legacy blob (the flat `Settings` record): spread the parsed
fields over the defaults, set `accounts := []` and `activeAccountId :=
null`, then — when both legacy credentials are truthy — create one account
(with `crypto.randomUUID()` modelled as the supplied `freshId`) from them,
hosted at `https://e621.net`, and make it active. -/
def migrateLegacySettings (parsed : Settings) (freshId : String) :
    MultiAccountSettings :=
  let base : MultiAccountSettings :=
    { accounts := []
      activeAccountId := none
      proxyUrl := parsed.proxyUrl
      enableProxy := parsed.enableProxy
      nsfwEnabled := parsed.nsfwEnabled
      safeMode := parsed.safeMode
      darkMode := parsed.darkMode
      blacklistedTags := parsed.blacklistedTags }
  if parsed.username ≠ "" ∧ parsed.apiKey ≠ "" then
    let account : Account :=
      { id := freshId
        name := parsed.username
        username := parsed.username
        apiKey := parsed.apiKey
        hostUrl := "https://e621.net" }
    { base with accounts := [account], activeAccountId := some account.id }
  else base

/-- A concrete post with the given id, used to instantiate theorems. -/
def mkPost (id : Nat) : Post :=
  { id := id
    file := { width := 1, height := 1, ext := "png", size := 1, md5 := "", url := none }
    preview := { width := 1, height := 1, url := none }
    score := { up := 0, down := 0, total := 0 }
    tags := { general := [], species := [], character := [], artist := []
              invalid := [], meta := [], lore := [] }
    rating := .s
    fav_count := 0
    uploader_id := 0
    description := "" }

/-! ## Claims -/

/-- C7: `isPostBlacklisted` returns true iff some tag of the post's general,
species, character or artist categories is exactly (case-sensitively) equal
to some blacklist entry; the invalid, meta and lore categories never
contribute, and the empty blacklist never hides a post. -/
theorem c7_blacklist_characterisation (post : Post) (blacklist : List String) :
    (isPostBlacklisted post blacklist = true ↔
      ∃ t, t ∈ post.tags.general ++ post.tags.species
             ++ post.tags.character ++ post.tags.artist
        ∧ t ∈ blacklist)
    ∧ isPostBlacklisted post [] = false := by
  refine ⟨?_, rfl⟩
  unfold isPostBlacklisted
  rcases blacklist with _ | ⟨b, bs⟩
  · simp
  · simp only [List.length_cons, Nat.succ_ne_zero, if_false, List.any_eq_true,
      List.contains, List.elem_eq_mem, decide_eq_true_eq]

/-- C8: `getComments` returns exactly the ordered comment list for both
tolerated response envelopes (a bare array, or an object whose `comments`
field holds the array), including the empty list, and swallows every
request failure into the empty list. -/
theorem c8_getComments_envelopes (s : Settings) (postId : Nat) (now : String)
    (cs : List Comment) (e : JsError) :
    getComments s postId now (fun _ => .ok (.arr cs)) = .arr cs
    ∧ getComments s postId now (fun _ => .ok (.obj (some (.arr cs)))) = .arr cs
    ∧ getComments s postId now (fun _ => .error e) = .arr [] :=
  ⟨rfl, rfl, rfl⟩

/-- C9: migrating a legacy flat settings blob yields a multi-account value:
one active account built from the legacy credentials (hosted at
https://e621.net) when both are non-empty, otherwise no accounts and no
active pointer; proxy configuration, content flags and the blacklist are
carried over. -/
theorem c9_legacy_migration (parsed : Settings) (freshId : String) :
    (migrateLegacySettings parsed freshId).accounts
      = (if parsed.username ≠ "" ∧ parsed.apiKey ≠ "" then
          [{ id := freshId, name := parsed.username, username := parsed.username
             apiKey := parsed.apiKey, hostUrl := "https://e621.net" }]
        else [])
    ∧ (migrateLegacySettings parsed freshId).activeAccountId
      = (if parsed.username ≠ "" ∧ parsed.apiKey ≠ "" then some freshId else none)
    ∧ (migrateLegacySettings parsed freshId).proxyUrl = parsed.proxyUrl
    ∧ (migrateLegacySettings parsed freshId).enableProxy = parsed.enableProxy
    ∧ (migrateLegacySettings parsed freshId).nsfwEnabled = parsed.nsfwEnabled
    ∧ (migrateLegacySettings parsed freshId).safeMode = parsed.safeMode
    ∧ (migrateLegacySettings parsed freshId).darkMode = parsed.darkMode
    ∧ (migrateLegacySettings parsed freshId).blacklistedTags = parsed.blacklistedTags := by
  by_cases h : parsed.username ≠ "" ∧ parsed.apiKey ≠ "" <;>
    simp [migrateLegacySettings, h]

/-- C2 fails as stated: nothing deduplicates ids *within* one fetched page,
so merging the empty accumulated list (trivially pairwise-distinct) with a
page that repeats id 3 leaves two entries with the same id. -/
theorem c2_counterexample :
    ¬ ((mergePosts [] [mkPost 3, mkPost 3]).map Post.id).Nodup := by
  decide

/-- C2 (amended): for *every* fetched page the merge keeps the previous
list unchanged and in order followed by exactly the fetched posts (in fetch
order) whose ids are not already present; when the previous list and —
this is the proviso the counterexample forces — the fetched page itself
both have pairwise-distinct ids, the accumulated list stays
duplicate-free; and merging ids `[1, 2, 3]` with the page `[3, 4, 5]`
yields `[1, 2, 3, 4, 5]`. -/
theorem c2_merge_amended (prev fetched : List Post) :
    mergePosts prev fetched
      = prev ++ fetched.filter (fun p => decide (p.id ∉ prev.map Post.id))
    ∧ ((prev.map Post.id).Nodup → (fetched.map Post.id).Nodup →
        ((mergePosts prev fetched).map Post.id).Nodup)
    ∧ (mergePosts [mkPost 1, mkPost 2, mkPost 3] [mkPost 3, mkPost 4, mkPost 5]).map Post.id
      = [1, 2, 3, 4, 5] := by
  have hfilter : mergePosts prev fetched
      = prev ++ fetched.filter (fun p => decide (p.id ∉ prev.map Post.id)) := by
    simp only [mergePosts]
    congr 1
    apply List.filter_congr
    intro p _
    simp [List.contains, List.elem_eq_mem]
  refine ⟨hfilter, ?_, by decide⟩
  intro hprev hfetched
  rw [hfilter, List.map_append, List.nodup_append]
  refine ⟨hprev, ((List.filter_sublist fetched).map Post.id).nodup hfetched, ?_⟩
  intro a ha hb
  obtain ⟨p, hp, rfl⟩ := List.mem_map.mp hb
  have hmem := List.mem_filter.mp hp
  simp only [decide_eq_true_eq] at hmem
  exact hmem.2 ha

/-- Instantiation of `c2_merge_amended` at the spec's own example, with the
distinctness provisos of the no-duplicates conjunct discharged. -/
theorem c2_merge_amended_witness :
    mergePosts [mkPost 1, mkPost 2, mkPost 3] [mkPost 3, mkPost 4, mkPost 5]
      = [mkPost 1, mkPost 2, mkPost 3]
        ++ [mkPost 3, mkPost 4, mkPost 5].filter
             (fun p => decide (p.id ∉ [mkPost 1, mkPost 2, mkPost 3].map Post.id))
    ∧ ((mergePosts [mkPost 1, mkPost 2, mkPost 3] [mkPost 3, mkPost 4, mkPost 5]).map Post.id).Nodup
    ∧ (mergePosts [mkPost 1, mkPost 2, mkPost 3] [mkPost 3, mkPost 4, mkPost 5]).map Post.id
      = [1, 2, 3, 4, 5] :=
  ⟨(c2_merge_amended [mkPost 1, mkPost 2, mkPost 3] [mkPost 3, mkPost 4, mkPost 5]).1,
   (c2_merge_amended [mkPost 1, mkPost 2, mkPost 3] [mkPost 3, mkPost 4, mkPost 5]).2.1
     (by decide) (by decide),
   (c2_merge_amended [mkPost 1, mkPost 2, mkPost 3] [mkPost 3, mkPost 4, mkPost 5]).2.2⟩

/-- A 5xx response (status in `[500, 600)`) is retryable for the
`ApiService` variant. -/
theorem shouldRetryService_of_5xx (st : Nat) (tx : String)
    (h1 : 500 ≤ st) (h2 : st < 600) :
    shouldRetryService (.response st tx) = true := by
  simp only [shouldRetryService, decide_eq_true_eq]
  exact ⟨h1, h2⟩

/-- A 5xx response is retryable for the standalone variant as well. -/
theorem shouldRetryStandalone_of_5xx (st : Nat) (tx : String) (h1 : 500 ≤ st) :
    shouldRetryStandalone (.response st tx) = true := by
  simp only [shouldRetryStandalone, decide_eq_true_eq]
  exact Or.inr h1

/-- Running the `ApiService` retry wrapper with the default parameters on an
operation that fails with a retryable error at every attempt: four
executions, delays 1000/2000/4000 ms, last error propagated. -/
theorem fetchWithRetryService_all_retryable {α : Type} (err : Nat → JsError)
    (h : ∀ n, shouldRetryService (err n) = true) :
    fetchWithRetryService (fun n => (.error (err n) : Except JsError α)) 3 1000 0
      = (.error (err 3), 4, [1000, 2000, 4000]) := by
  simp [fetchWithRetryService, h 0, h 1, h 2, h 3]

/-- Same for the standalone retry wrapper. -/
theorem fetchWithRetryStandalone_all_retryable {α : Type} (err : Nat → JsError)
    (h : ∀ n, shouldRetryStandalone (err n) = true) :
    fetchWithRetryStandalone (fun n => (.error (err n) : Except JsError α)) 3 1000 0
      = (.error (err 3), 4, [1000, 2000, 4000]) := by
  simp [fetchWithRetryStandalone, h 0, h 1, h 2, h 3]

/-- C1 fails as stated over "status >= 500": the `ApiService` retry
predicate also requires `status < 600`, so an operation that always fails
with a status-600 response is executed exactly once with no delay, not four
times. -/
theorem c1_counterexample :
    fetchWithRetryService (fun _ => (.error (.response 600 "") : Except JsError Unit)) 3 1000 0
      = (.error (.response 600 ""), 1, []) := rfl

/-- C1 (amended): for an operation that always fails with an HTTP response
whose status lies in `[500, 600)` (e.g. 503), both retry wrappers with the
default parameters execute the operation exactly 4 times, sleep 1000, 2000
and 4000 ms between attempts, and propagate the last error unchanged; a
404 response is never retried — one execution, no delay, the error
propagates immediately. -/
theorem c1_retry_amended {α : Type} (err : Nat → JsError)
    (h : ∀ n, ∃ st tx, err n = .response st tx ∧ 500 ≤ st ∧ st < 600) :
    (fetchWithRetryService (fun n => (.error (err n) : Except JsError α)) 3 1000 0
        = (.error (err 3), 4, [1000, 2000, 4000])
      ∧ fetchWithRetryStandalone (fun n => (.error (err n) : Except JsError α)) 3 1000 0
        = (.error (err 3), 4, [1000, 2000, 4000]))
    ∧ (∀ tx,
        fetchWithRetryService (fun _ => (.error (.response 404 tx) : Except JsError α)) 3 1000 0
          = (.error (.response 404 tx), 1, [])
        ∧ fetchWithRetryStandalone (fun _ => (.error (.response 404 tx) : Except JsError α)) 3 1000 0
          = (.error (.response 404 tx), 1, [])) := by
  have hA : ∀ n, shouldRetryService (err n) = true := by
    intro n
    obtain ⟨st, tx, he, h1, h2⟩ := h n
    rw [he]
    exact shouldRetryService_of_5xx st tx h1 h2
  have hB : ∀ n, shouldRetryStandalone (err n) = true := by
    intro n
    obtain ⟨st, tx, he, h1, _⟩ := h n
    rw [he]
    exact shouldRetryStandalone_of_5xx st tx h1
  exact ⟨⟨fetchWithRetryService_all_retryable err hA,
          fetchWithRetryStandalone_all_retryable err hB⟩,
         fun tx => ⟨rfl, rfl⟩⟩

/-- Instantiation of `c1_retry_amended` at a constant 503 failure. -/
theorem c1_retry_amended_witness :
    (fetchWithRetryService
        (fun n => (.error ((fun _ => JsError.response 503 "Service Unavailable") n)
          : Except JsError Unit)) 3 1000 0
        = (.error (.response 503 "Service Unavailable"), 4, [1000, 2000, 4000])
      ∧ fetchWithRetryStandalone
        (fun n => (.error ((fun _ => JsError.response 503 "Service Unavailable") n)
          : Except JsError Unit)) 3 1000 0
        = (.error (.response 503 "Service Unavailable"), 4, [1000, 2000, 4000]))
    ∧ (∀ tx,
        fetchWithRetryService (fun _ => (.error (.response 404 tx) : Except JsError Unit)) 3 1000 0
          = (.error (.response 404 tx), 1, [])
        ∧ fetchWithRetryStandalone (fun _ => (.error (.response 404 tx) : Except JsError Unit)) 3 1000 0
          = (.error (.response 404 tx), 1, [])) :=
  c1_retry_amended (fun _ => JsError.response 503 "Service Unavailable")
    (fun _ => ⟨503, "Service Unavailable", rfl, by omega, by omega⟩)

/-- An operation that succeeds at its first attempt passes through the
standalone retry wrapper untouched: one execution, no delays. -/
theorem fetchWithRetryStandalone_first_ok {α : Type} (fn : Nat → Except JsError α)
    (r d a : Nat) (v : α) (hfn : fn a = .ok v) :
    fetchWithRetryStandalone fn r d a = (.ok v, a + 1, []) := by
  unfold fetchWithRetryStandalone
  rw [hfn]

/-- C5 fails as stated: a successful *empty* page still advances the
cursor.  From page 5, an append fetch that returns the empty page moves the
cursor to 6 (while correctly clearing "has more"). -/
theorem c5_counterexample :
    (fetchPostsFn ⟨[mkPost 1], 5, true, false, none⟩ createDefaultSettings .home "" false
        (fun _ _ _ => .ok [])).state.page = 6
    ∧ (fetchPostsFn ⟨[mkPost 1], 5, true, false, none⟩ createDefaultSettings .home "" false
        (fun _ _ _ => .ok [])).state.hasMore = false :=
  ⟨rfl, rfl⟩

/-- C5 (amended): on a successful fetch issued while not loading (and, for
an append, with "has more" still set), an empty page sets `hasMore` to
false — and the cursor advances on *every* successful fetch, empty or not:
a reset sets it to 2, an append increments it by 1; the post list is
replaced (reset) or dedup-merged (append). -/
theorem c5_fetch_success_amended (st : FeedState) (s : Settings) (query : String)
    (reset : Bool) (fetched : List Post)
    (hl : st.loading = false) (hm : reset = true ∨ st.hasMore = true) :
    fetchPostsFn st s .home query reset (fun _ _ _ => .ok fetched)
      = ⟨{ posts := if reset then fetched else mergePosts st.posts fetched
           page := if reset then 2 else st.page + 1
           hasMore := decide (0 < fetched.length)
           loading := false
           error := if reset then none else st.error }, 1, none⟩ := by
  have hguard : ¬ (st.loading = true ∨ (¬ reset = true ∧ ¬ st.hasMore = true)) := by
    rcases hm with h | h <;> simp [hl, h]
  unfold fetchPostsFn
  rw [if_neg hguard]
  have hq : ∃ q, composeFinalQuery s .home query = .ok q := by
    unfold composeFinalQuery
    exact ⟨_, rfl⟩
  obtain ⟨q, hq⟩ := hq
  rw [hq]
  dsimp only
  rw [fetchWithRetryStandalone_first_ok _ 3 1000 0 fetched rfl]

/-- Instantiation of `c5_fetch_success_amended` at a reset fetch returning
one post. -/
theorem c5_fetch_success_amended_witness :
    fetchPostsFn ⟨[], 1, true, false, none⟩ createDefaultSettings .home "" true
        (fun _ _ _ => .ok [mkPost 7])
      = ⟨{ posts := if true then [mkPost 7] else mergePosts [] [mkPost 7]
           page := if true then 2 else 1 + 1
           hasMore := decide (0 < [mkPost 7].length)
           loading := false
           error := if true then none else none }, 1, none⟩ :=
  c5_fetch_success_amended ⟨[], 1, true, false, none⟩ createDefaultSettings "" true
    [mkPost 7] rfl (Or.inl rfl)

/-- C6: a favorites fetch with no username in the settings throws the
instructive validation error before any network activity: zero requests are
issued (so nothing is retried), the caught error is exactly the validation
message, the accumulated posts, cursor and "has more" flag are unchanged,
and a reset fetch surfaces the message in the error banner. -/
theorem c6_favorites_validation (st : FeedState) (s : Settings) (query : String)
    (reset : Bool) (net : String → Nat → Nat → Except JsError (List Post))
    (hl : st.loading = false) (hm : reset = true ∨ st.hasMore = true)
    (hu : s.username = "") :
    (fetchPostsFn st s .favorites query reset net).attempts = 0
    ∧ (fetchPostsFn st s .favorites query reset net).thrown
      = some (.plainError "Please set your username in Settings > Account to view favorites.")
    ∧ (fetchPostsFn st s .favorites query reset net).state.posts = st.posts
    ∧ (fetchPostsFn st s .favorites query reset net).state.page = st.page
    ∧ (fetchPostsFn st s .favorites query reset net).state.hasMore = st.hasMore
    ∧ (reset = true →
        (fetchPostsFn st s .favorites query reset net).state.error
          = some "Please set your username in Settings > Account to view favorites.") := by
  have hguard : ¬ (st.loading = true ∨ (¬ reset = true ∧ ¬ st.hasMore = true)) := by
    rcases hm with h | h <;> simp [hl, h]
  have hq : composeFinalQuery s .favorites query
      = .error (.plainError
          "Please set your username in Settings > Account to view favorites.") := by
    unfold composeFinalQuery
    rw [if_pos hu]
    rfl
  unfold fetchPostsFn
  rw [if_neg hguard, hq]
  refine ⟨rfl, rfl, rfl, rfl, rfl, ?_⟩
  intro hr
  simp [hr, parseApiError]

/-- Instantiation of `c6_favorites_validation` at a reset fetch with the
default (usernameless) settings. -/
theorem c6_favorites_validation_witness :
    (fetchPostsFn ⟨[], 1, true, false, none⟩ createDefaultSettings .favorites "" true
        (fun _ _ _ => .ok [])).attempts = 0
    ∧ (fetchPostsFn ⟨[], 1, true, false, none⟩ createDefaultSettings .favorites "" true
        (fun _ _ _ => .ok [])).thrown
      = some (.plainError "Please set your username in Settings > Account to view favorites.")
    ∧ (fetchPostsFn ⟨[], 1, true, false, none⟩ createDefaultSettings .favorites "" true
        (fun _ _ _ => .ok [])).state.posts = []
    ∧ (fetchPostsFn ⟨[], 1, true, false, none⟩ createDefaultSettings .favorites "" true
        (fun _ _ _ => .ok [])).state.page = 1
    ∧ (fetchPostsFn ⟨[], 1, true, false, none⟩ createDefaultSettings .favorites "" true
        (fun _ _ _ => .ok [])).state.hasMore = true
    ∧ (true = true →
        (fetchPostsFn ⟨[], 1, true, false, none⟩ createDefaultSettings .favorites "" true
            (fun _ _ _ => .ok [])).state.error
          = some "Please set your username in Settings > Account to view favorites.") :=
  c6_favorites_validation ⟨[], 1, true, false, none⟩ createDefaultSettings "" true
    (fun _ _ _ => .ok []) rfl (Or.inl rfl) rfl

/-- C10 fails as stated: the loader of src/src/hooks/useSettings.ts spreads
the parsed blob without sanitising `blacklistedTags`, so a stored
non-array value (here the string `"x"`) is carried through unchanged rather
than replaced by the default empty list; and even the sanitising part_000
loader copies a wrongly-typed present field (here `username: 42`) as-is, so
the loaded value is not a well-formed `Settings` record. -/
theorem c10_counterexample :
    (loadSettingsHooks (some (some (.jobj [("blacklistedTags", .jstr "x")])))).blacklistedTags
      = .jstr "x"
    ∧ jIsArray ((loadSettingsHooks (some (some (.jobj
        [("blacklistedTags", .jstr "x")])))).blacklistedTags) = false
    ∧ (loadSettingsCurrent (some (some (.jobj [("username", .jnum 42)])))).username = .jnum 42
    ∧ wellFormedSettings (loadSettingsCurrent (some (some (.jobj [("username", .jnum 42)]))))
      = false :=
  ⟨rfl, rfl, rfl, rfl⟩

/-- The carried flat fields of the part_001 loader's object case do not
depend on which migration branch is taken. -/
theorem loadSettingsMigrating_flat (fs : List (String × JVal)) (freshId : String) :
    (loadSettingsMigrating (some (some (.jobj fs))) freshId).proxyUrl
      = (jget fs "proxyUrl").getD defaultLoadedMultiSettings.proxyUrl
    ∧ (loadSettingsMigrating (some (some (.jobj fs))) freshId).enableProxy
      = (jget fs "enableProxy").getD defaultLoadedMultiSettings.enableProxy
    ∧ (loadSettingsMigrating (some (some (.jobj fs))) freshId).nsfwEnabled
      = (jget fs "nsfwEnabled").getD defaultLoadedMultiSettings.nsfwEnabled
    ∧ (loadSettingsMigrating (some (some (.jobj fs))) freshId).safeMode
      = (jget fs "safeMode").getD defaultLoadedMultiSettings.safeMode
    ∧ (loadSettingsMigrating (some (some (.jobj fs))) freshId).darkMode
      = (jget fs "darkMode").getD defaultLoadedMultiSettings.darkMode := by
  dsimp only [loadSettingsMigrating]
  split
  · split <;> exact ⟨rfl, rfl, rfl, rfl, rfl⟩
  · exact ⟨rfl, rfl, rfl, rfl, rfl⟩

/-- The part_001 loader sanitises `blacklistedTags` the same way in every
migration branch. -/
theorem loadSettingsMigrating_blacklist (fs : List (String × JVal)) (freshId : String) :
    (loadSettingsMigrating (some (some (.jobj fs))) freshId).blacklistedTags
      = (match jget fs "blacklistedTags" with
         | some v => if jIsArray v then v else .jarr []
         | none => .jarr []) := by
  dsimp only [loadSettingsMigrating]
  split
  · split <;> rfl
  · rfl

/-- C10 (amended): all three loaders are total — absent storage, malformed
JSON, a stored `null` and stored primitives all produce the defaults; for a
parsed object every field missing from the parse is filled from the
defaults while present fields are spread in as-is, without type coercion;
the part_000 and part_001 loaders additionally force `blacklistedTags` back
to an array (the default empty list when the stored value is not an array),
which the hooks/useSettings.ts loader does not do. -/
theorem c10_loader_amended :
    (loadSettingsCurrent none = defaultLoadedSettings
      ∧ loadSettingsCurrent (some none) = defaultLoadedSettings
      ∧ loadSettingsCurrent (some (some .jnull)) = defaultLoadedSettings
      ∧ (∀ b, loadSettingsCurrent (some (some (.jbool b))) = defaultLoadedSettings)
      ∧ (∀ n, loadSettingsCurrent (some (some (.jnum n))) = defaultLoadedSettings)
      ∧ (∀ t, loadSettingsCurrent (some (some (.jstr t))) = defaultLoadedSettings)
      ∧ (∀ xs, loadSettingsCurrent (some (some (.jarr xs))) = defaultLoadedSettings)
      ∧ (∀ fs,
          (loadSettingsCurrent (some (some (.jobj fs)))).username
            = (jget fs "username").getD defaultLoadedSettings.username
          ∧ (loadSettingsCurrent (some (some (.jobj fs)))).apiKey
            = (jget fs "apiKey").getD defaultLoadedSettings.apiKey
          ∧ (loadSettingsCurrent (some (some (.jobj fs)))).proxyUrl
            = (jget fs "proxyUrl").getD defaultLoadedSettings.proxyUrl
          ∧ (loadSettingsCurrent (some (some (.jobj fs)))).enableProxy
            = (jget fs "enableProxy").getD defaultLoadedSettings.enableProxy
          ∧ (loadSettingsCurrent (some (some (.jobj fs)))).nsfwEnabled
            = (jget fs "nsfwEnabled").getD defaultLoadedSettings.nsfwEnabled
          ∧ (loadSettingsCurrent (some (some (.jobj fs)))).safeMode
            = (jget fs "safeMode").getD defaultLoadedSettings.safeMode
          ∧ (loadSettingsCurrent (some (some (.jobj fs)))).darkMode
            = (jget fs "darkMode").getD defaultLoadedSettings.darkMode
          ∧ (loadSettingsCurrent (some (some (.jobj fs)))).blacklistedTags
            = (match jget fs "blacklistedTags" with
               | some v => if jIsArray v then v else .jarr []
               | none => .jarr []))
      ∧ (∀ stored, jIsArray (loadSettingsCurrent stored).blacklistedTags = true))
    ∧ (loadSettingsHooks none = defaultLoadedAppSettings
      ∧ loadSettingsHooks (some none) = defaultLoadedAppSettings
      ∧ loadSettingsHooks (some (some .jnull)) = defaultLoadedAppSettings
      ∧ (∀ b, loadSettingsHooks (some (some (.jbool b))) = defaultLoadedAppSettings)
      ∧ (∀ n, loadSettingsHooks (some (some (.jnum n))) = defaultLoadedAppSettings)
      ∧ (∀ t, loadSettingsHooks (some (some (.jstr t))) = defaultLoadedAppSettings)
      ∧ (∀ xs, loadSettingsHooks (some (some (.jarr xs))) = defaultLoadedAppSettings)
      ∧ (∀ fs,
          (loadSettingsHooks (some (some (.jobj fs)))).username
            = (jget fs "username").getD defaultLoadedAppSettings.username
          ∧ (loadSettingsHooks (some (some (.jobj fs)))).apiKey
            = (jget fs "apiKey").getD defaultLoadedAppSettings.apiKey
          ∧ (loadSettingsHooks (some (some (.jobj fs)))).proxyUrl
            = (jget fs "proxyUrl").getD defaultLoadedAppSettings.proxyUrl
          ∧ (loadSettingsHooks (some (some (.jobj fs)))).enableProxy
            = (jget fs "enableProxy").getD defaultLoadedAppSettings.enableProxy
          ∧ (loadSettingsHooks (some (some (.jobj fs)))).safeMode
            = (jget fs "safeMode").getD defaultLoadedAppSettings.safeMode
          ∧ (loadSettingsHooks (some (some (.jobj fs)))).darkMode
            = (jget fs "darkMode").getD defaultLoadedAppSettings.darkMode
          ∧ (loadSettingsHooks (some (some (.jobj fs)))).blacklistedTags
            = (jget fs "blacklistedTags").getD defaultLoadedAppSettings.blacklistedTags))
    ∧ ((∀ freshId, loadSettingsMigrating none freshId = defaultLoadedMultiSettings)
      ∧ (∀ freshId, loadSettingsMigrating (some none) freshId = defaultLoadedMultiSettings)
      ∧ (∀ freshId, loadSettingsMigrating (some (some .jnull)) freshId
          = defaultLoadedMultiSettings)
      ∧ (∀ b freshId, loadSettingsMigrating (some (some (.jbool b))) freshId
          = defaultLoadedMultiSettings)
      ∧ (∀ n freshId, loadSettingsMigrating (some (some (.jnum n))) freshId
          = defaultLoadedMultiSettings)
      ∧ (∀ t freshId, loadSettingsMigrating (some (some (.jstr t))) freshId
          = defaultLoadedMultiSettings)
      ∧ (∀ xs freshId, loadSettingsMigrating (some (some (.jarr xs))) freshId
          = defaultLoadedMultiSettings)
      ∧ (∀ fs freshId,
          (loadSettingsMigrating (some (some (.jobj fs))) freshId).proxyUrl
            = (jget fs "proxyUrl").getD defaultLoadedMultiSettings.proxyUrl
          ∧ (loadSettingsMigrating (some (some (.jobj fs))) freshId).enableProxy
            = (jget fs "enableProxy").getD defaultLoadedMultiSettings.enableProxy
          ∧ (loadSettingsMigrating (some (some (.jobj fs))) freshId).nsfwEnabled
            = (jget fs "nsfwEnabled").getD defaultLoadedMultiSettings.nsfwEnabled
          ∧ (loadSettingsMigrating (some (some (.jobj fs))) freshId).safeMode
            = (jget fs "safeMode").getD defaultLoadedMultiSettings.safeMode
          ∧ (loadSettingsMigrating (some (some (.jobj fs))) freshId).darkMode
            = (jget fs "darkMode").getD defaultLoadedMultiSettings.darkMode
          ∧ (loadSettingsMigrating (some (some (.jobj fs))) freshId).blacklistedTags
            = (match jget fs "blacklistedTags" with
               | some v => if jIsArray v then v else .jarr []
               | none => .jarr []))
      ∧ (∀ stored freshId,
          jIsArray (loadSettingsMigrating stored freshId).blacklistedTags = true)) := by
  refine ⟨⟨rfl, rfl, rfl, fun b => rfl, fun n => rfl, fun t => rfl, fun xs => rfl,
      fun fs => ⟨rfl, rfl, rfl, rfl, rfl, rfl, rfl, rfl⟩, ?_⟩,
    ⟨rfl, rfl, rfl, fun b => rfl, fun n => rfl, fun t => rfl, fun xs => rfl,
      fun fs => ⟨rfl, rfl, rfl, rfl, rfl, rfl, rfl⟩⟩,
    ⟨fun freshId => rfl, fun freshId => rfl, fun freshId => rfl, fun b freshId => rfl,
      fun n freshId => rfl, fun t freshId => rfl, fun xs freshId => rfl,
      fun fs freshId => ?_, ?_⟩⟩
  · intro stored
    match stored with
    | none => rfl
    | some none => rfl
    | some (some .jnull) => rfl
    | some (some (.jbool b)) => rfl
    | some (some (.jnum n)) => rfl
    | some (some (.jstr t)) => rfl
    | some (some (.jarr xs)) => rfl
    | some (some (.jobj fs)) =>
      dsimp only [loadSettingsCurrent]
      cases hj : jget fs "blacklistedTags" with
      | none => rfl
      | some v => cases v <;> rfl
  · obtain ⟨h1, h2, h3, h4, h5⟩ := loadSettingsMigrating_flat fs freshId
    exact ⟨h1, h2, h3, h4, h5, loadSettingsMigrating_blacklist fs freshId⟩
  · intro stored freshId
    match stored with
    | none => rfl
    | some none => rfl
    | some (some .jnull) => rfl
    | some (some (.jbool b)) => rfl
    | some (some (.jnum n)) => rfl
    | some (some (.jstr t)) => rfl
    | some (some (.jarr xs)) => rfl
    | some (some (.jobj fs)) =>
      rw [loadSettingsMigrating_blacklist fs freshId]
      cases hj : jget fs "blacklistedTags" with
      | none => rfl
      | some v => cases v <;> rfl

/-- Setting a key that is not yet present appends the pair. -/
theorem jsObjSet_not_mem (obj : ParamMap) (k v : String)
    (h : k ∉ obj.map Prod.fst) :
    jsObjSet obj k v = obj ++ [(k, v)] := by
  simp [jsObjSet, List.contains, List.elem_eq_mem, h]

/-- `jsObjSet` never produces the empty object. -/
theorem jsObjSet_ne_nil (obj : ParamMap) (k v : String) : jsObjSet obj k v ≠ [] := by
  unfold jsObjSet
  split
  next hc =>
    cases obj with
    | nil => simp [List.contains] at hc
    | cons a l => simp
  next => simp

/-- Under fresh reserved keys, `safeParams` is literally the caller's
parameters, then the cache buster, then the auth parameters. -/
theorem safeParams_eq (params : ParamMap) (s : Settings) (now : String)
    (hcb : "_cb" ∉ params.map Prod.fst)
    (hlogin : "login" ∉ params.map Prod.fst)
    (hkey : "api_key" ∉ params.map Prod.fst) :
    safeParams params s now = params ++ [("_cb", now)] ++ authParams s := by
  unfold safeParams authParams
  rw [jsObjSet_not_mem params "_cb" now hcb]
  by_cases hauth : s.username ≠ "" ∧ s.apiKey ≠ ""
  · rw [if_pos hauth, if_pos hauth]
    rw [jsObjSet_not_mem (params ++ [("_cb", now)]) "login" (jsTrim s.username)
      (by simp [hlogin])]
    rw [jsObjSet_not_mem (params ++ [("_cb", now)] ++ [("login", jsTrim s.username)])
      "api_key" (jsTrim s.apiKey) (by simp [hkey, hlogin])]
    simp
  · rw [if_neg hauth, if_neg hauth]
    simp

/-- `safeParams` always holds at least the cache buster. -/
theorem safeParams_ne_nil (params : ParamMap) (s : Settings) (now : String) :
    safeParams params s now ≠ [] := by
  unfold safeParams
  split
  · exact jsObjSet_ne_nil _ _ _
  · exact jsObjSet_ne_nil _ _ _

/-- C3 fails as stated: presence of `login`/`api_key` is decided by the
*untrimmed* credentials (JavaScript truthiness), so a whitespace-only
username — empty after trimming — still gets a (worthless, empty-valued)
`login` parameter appended.  With proxying disabled the full URL carries
`login=` and `api_key=k`. -/
theorem c3_counterexample :
    ((safeParams [] { createDefaultSettings with username := " ", apiKey := "k" } "0").map
        Prod.fst = ["_cb", "login", "api_key"])
    ∧ jsTrim " " = ""
    ∧ buildUrl "/posts.json" [] { createDefaultSettings with username := " ", apiKey := "k" } "0"
      = "https://e621.net/posts.json?_cb=0&login=&api_key=k" := by
  refine ⟨by decide, by decide, by decide⟩

/-- C3 (amended): with proxying disabled and a parameter map free of the
reserved keys `_cb`/`login`/`api_key`, the builder returns the canonical
target URL over the given parameters followed by exactly one cache-busting
parameter, with `login`/`api_key` present iff both the username and the API
key are non-empty *before* trimming, in which case the appended values are
the trimmed credentials. -/
theorem c3_buildUrl_amended (endpoint : String) (params : ParamMap) (s : Settings)
    (now : String)
    (hproxy : s.enableProxy = false)
    (hcb : "_cb" ∉ params.map Prod.fst)
    (hlogin : "login" ∉ params.map Prod.fst)
    (hkey : "api_key" ∉ params.map Prod.fst) :
    buildUrl endpoint params s now
      = targetUrlString endpoint (params ++ [("_cb", now)] ++ authParams s)
    ∧ countKey (safeParams params s now) "_cb" = 1
    ∧ ("login" ∈ (safeParams params s now).map Prod.fst
        ↔ s.username ≠ "" ∧ s.apiKey ≠ "")
    ∧ ("api_key" ∈ (safeParams params s now).map Prod.fst
        ↔ s.username ≠ "" ∧ s.apiKey ≠ "")
    ∧ (s.username ≠ "" ∧ s.apiKey ≠ "" →
        ("login", jsTrim s.username) ∈ safeParams params s now
        ∧ ("api_key", jsTrim s.apiKey) ∈ safeParams params s now) := by
  have hsp := safeParams_eq params s now hcb hlogin hkey
  have hparams0 : (params.countP fun p => p.1 = "_cb") = 0 := by
    rw [List.countP_eq_zero]
    intro p hp
    simp only [decide_eq_true_eq]
    intro hpk
    exact hcb (hpk ▸ List.mem_map_of_mem Prod.fst hp)
  refine ⟨?_, ?_, ?_, ?_, ?_⟩
  · simp [buildUrl, hproxy, hsp]
  · rw [hsp]
    unfold authParams
    by_cases hauth : s.username ≠ "" ∧ s.apiKey ≠ "" <;>
      simp [countKey, List.countP_append, hauth, hparams0, List.countP_cons]
  · rw [hsp]
    unfold authParams
    by_cases hauth : s.username ≠ "" ∧ s.apiKey ≠ "" <;>
      simp [hauth, hlogin]
  · rw [hsp]
    unfold authParams
    by_cases hauth : s.username ≠ "" ∧ s.apiKey ≠ "" <;>
      simp [hauth, hkey]
  · intro hauth
    rw [hsp]
    unfold authParams
    rw [if_pos hauth]
    simp

/-- Instantiation of `c3_buildUrl_amended` at the posts endpoint with
credentials set. -/
theorem c3_buildUrl_amended_witness :
    buildUrl "/posts.json" [("tags", "fox"), ("page", "1"), ("limit", "20")]
        { createDefaultSettings with username := "user", apiKey := "key" } "42"
      = targetUrlString "/posts.json"
          ([("tags", "fox"), ("page", "1"), ("limit", "20")] ++ [("_cb", "42")]
            ++ authParams { createDefaultSettings with username := "user", apiKey := "key" })
    ∧ countKey (safeParams [("tags", "fox"), ("page", "1"), ("limit", "20")]
        { createDefaultSettings with username := "user", apiKey := "key" } "42") "_cb" = 1
    ∧ ("login" ∈ (safeParams [("tags", "fox"), ("page", "1"), ("limit", "20")]
          { createDefaultSettings with username := "user", apiKey := "key" } "42").map Prod.fst
        ↔ ("user" : String) ≠ "" ∧ ("key" : String) ≠ "")
    ∧ ("api_key" ∈ (safeParams [("tags", "fox"), ("page", "1"), ("limit", "20")]
          { createDefaultSettings with username := "user", apiKey := "key" } "42").map Prod.fst
        ↔ ("user" : String) ≠ "" ∧ ("key" : String) ≠ "")
    ∧ (("user" : String) ≠ "" ∧ ("key" : String) ≠ "" →
        ("login", jsTrim "user")
            ∈ safeParams [("tags", "fox"), ("page", "1"), ("limit", "20")]
                { createDefaultSettings with username := "user", apiKey := "key" } "42"
        ∧ ("api_key", jsTrim "key")
            ∈ safeParams [("tags", "fox"), ("page", "1"), ("limit", "20")]
                { createDefaultSettings with username := "user", apiKey := "key" } "42") :=
  c3_buildUrl_amended "/posts.json" [("tags", "fox"), ("page", "1"), ("limit", "20")]
    { createDefaultSettings with username := "user", apiKey := "key" } "42"
    rfl (by decide) (by decide) (by decide)

/-- A character list starts with itself (followed by anything). -/
theorem listStartsWith_append_self (pat suffix : List Char) :
    listStartsWith pat (pat ++ suffix) = true := by
  induction pat with
  | nil => rfl
  | cons p ps ih => simp [listStartsWith, ih]

/-- Replacing the first occurrence of a non-empty pattern in a list that
begins with it keeps the untouched suffix. -/
theorem replaceFirstChars_append_self (pat repl suffix : List Char) (h : pat ≠ []) :
    replaceFirstChars pat repl (pat ++ suffix) = repl ++ suffix := by
  cases pat with
  | nil => exact absurd rfl h
  | cons p ps =>
    have hs : listStartsWith (p :: ps) (p :: (ps ++ suffix)) = true := by
      have hx := listStartsWith_append_self (p :: ps) suffix
      rwa [List.cons_append] at hx
    rw [List.cons_append]
    unfold replaceFirstChars
    simp [hs, List.drop_left]

/-- String-level consequence for `String.prototype.replace`: when the
subject starts with the (non-empty) pattern, the replacement lands exactly
on that prefix. -/
theorem jsReplaceFirst_append (pat rest repl : String) (h : pat ≠ "") :
    jsReplaceFirst (pat ++ rest) pat repl = repl ++ rest := by
  apply String.ext
  show replaceFirstChars pat.data repl.data (pat ++ rest).data = (repl ++ rest).data
  rw [String.data_append, String.data_append]
  apply replaceFirstChars_append_self
  intro hd
  exact h (String.ext (by simp [hd]))

/-- With a non-empty parameter list the serialized target URL is the base,
the endpoint, and the rendered query. -/
theorem targetUrlString_of_ne_nil (endpoint : String) (ps : ParamMap) (h : ps ≠ []) :
    targetUrlString endpoint ps
      = "https://e621.net" ++ endpoint ++ ("?" ++ renderQuery ps) := by
  simp [targetUrlString, h]

/-- C4: with proxying enabled and a non-empty proxy URL, a proxy URL
containing `?` acts as a prefix proxy — the built URL is the proxy URL
followed by the percent-encoded target — and a proxy URL without `?` acts
as a host-replacement proxy — the built URL is the target with its
`https://e621.net` origin replaced by the proxy URL stripped of a single
trailing slash. -/
theorem c4_proxy_build (endpoint : String) (params : ParamMap) (s : Settings)
    (now : String) (hp : s.enableProxy = true) (hne : s.proxyUrl ≠ "") :
    (s.proxyUrl.data.contains '?' = true →
      buildUrl endpoint params s now
        = s.proxyUrl ++ encodeUriComponent (targetUrlString endpoint (safeParams params s now)))
    ∧ (s.proxyUrl.data.contains '?' = false →
      buildUrl endpoint params s now
        = stripTrailingSlash s.proxyUrl
            ++ (endpoint ++ ("?" ++ renderQuery (safeParams params s now)))) := by
  constructor
  · intro hq
    unfold buildUrl
    dsimp only
    rw [if_pos ⟨hp, hne⟩, if_pos hq]
  · intro hq
    have hsp := safeParams_ne_nil params s now
    have htarget := targetUrlString_of_ne_nil endpoint (safeParams params s now) hsp
    unfold buildUrl
    dsimp only
    rw [if_pos ⟨hp, hne⟩,
      if_neg (by simpa [List.contains, List.elem_eq_mem] using hq)]
    rw [htarget, String.append_assoc]
    exact jsReplaceFirst_append "https://e621.net"
      (endpoint ++ ("?" ++ renderQuery (safeParams params s now)))
      (stripTrailingSlash s.proxyUrl) (by decide)

/-- Instantiation of `c4_proxy_build` at the default (prefix-style) proxy
URL with proxying switched on. -/
theorem c4_proxy_build_witness :
    ((("https://corsproxy.io/?" : String).data.contains '?' = true →
      buildUrl "/posts.json" [("tags", "fox")]
          { createDefaultSettings with enableProxy := true } "42"
        = "https://corsproxy.io/?"
            ++ encodeUriComponent (targetUrlString "/posts.json"
                (safeParams [("tags", "fox")]
                  { createDefaultSettings with enableProxy := true } "42")))
    ∧ (("https://corsproxy.io/?" : String).data.contains '?' = false →
      buildUrl "/posts.json" [("tags", "fox")]
          { createDefaultSettings with enableProxy := true } "42"
        = stripTrailingSlash "https://corsproxy.io/?"
            ++ ("/posts.json" ++ ("?" ++ renderQuery (safeParams [("tags", "fox")]
                  { createDefaultSettings with enableProxy := true } "42")))))
    ∧ buildUrl "/posts.json" [("tags", "fox")]
          { createDefaultSettings with enableProxy := true } "42"
        = "https://corsproxy.io/?https%3A%2F%2Fe621.net%2Fposts.json%3Ftags%3Dfox%26_cb%3D42" :=
  ⟨c4_proxy_build "/posts.json" [("tags", "fox")]
      { createDefaultSettings with enableProxy := true } "42" rfl (by decide),
   by decide⟩

end E6Client
